import Mathlib

/-!
Verification of `projects/destinations_similarity/deploy.py`, a deployment
orchestrator for Flyte workflows.  The script is shallowly embedded: each
Python function becomes a pure Lean function; the external world (git
repository state, subprocess outcomes, the stdout of the cluster query, the
random uuid drawn for fast registration, the filesystem archive) is passed in
explicitly, and every observable external action is recorded in an event
trace, in program order.
-/

namespace Deploy

/-- Python `str.strip()`: drop whitespace from both ends.  Defined by
structural recursion on the character list so the kernel can evaluate it. -/
def pyStrip (s : String) : String :=
  String.mk (((s.data.dropWhile Char.isWhitespace).reverse.dropWhile
    Char.isWhitespace).reverse)

/-- Python `str.lower()` (ASCII case folding, which is all the script
uses). -/
def pyLower (s : String) : String :=
  String.mk (s.data.map Char.toLower)

/-- Module-level constant `IMAGE_NAME = "flytelab"`. -/
def IMAGE_NAME : String := "flytelab"

/-- Module-level constant `REGISTRY = "ghcr.io/patrickfbraz".lower()`. -/
def REGISTRY : String := pyLower "ghcr.io/patrickfbraz"

/-- Module-level constant `PROJECT_NAME = "vamos-dalhe"`. -/
def PROJECT_NAME : String := "vamos-dalhe"

/-- Module-level constant `DESCRIPTION`. -/
def DESCRIPTION : String := "Hurb project to the Flyte Hackathon"

/-- Observable external actions performed by the script, in program order.
`echo` is a message printed by `typer.echo` (with its `err` flag);
`exitCall` is a raised `typer.Exit(code=n)`; the remaining constructors are
the subprocess / docker-API invocations, carrying the arguments the claims
talk about. -/
inductive Event where
  | echo (msg : String) (isErr : Bool)
  | exitCall (code : Nat)
  | getProject (config : String)
  | createProj (config : String)
  | sandboxBuild (tag : String)
  | localBuild (tag : String) (config : String)
  | pushImage (tag : String)
  | removeArchive
  | packageCall (config : String) (tag : String) (fast : Bool) (flyteSandboxEnv : String)
  | registerFiles (config : String) (domain : String) (version : String)
  deriving DecidableEq, Repr

/-- State of the git repository seen by `git.Repo(".")`: whether
`repo.is_dirty()` holds and the hexsha of `repo.rev_parse("HEAD")`. -/
structure RepoState where
  dirty : Bool
  headHexsha : String
  deriving DecidableEq, Repr

/-- The external world an invocation of the script runs against: the decoded
stdout of the `flytectl get project` query, the success of each external
subprocess / build call, the repository state, whether `flyte-package.tgz`
already exists, and the hex digits of the `uuid.uuid4()` value drawn during
fast registration. -/
structure World where
  queryStdout : String
  queryOk : Bool
  createOk : Bool
  repo : RepoState
  sandboxBuildOk : Bool
  localBuildOk : Bool
  archiveExists : Bool
  packOk : Bool
  registerOk : Bool
  uuidHex : List Char
  deriving DecidableEq, Repr

/-- `Path(".flyte") / f"{config_type}-config.yaml"` as computed in
`create_project` (`config_type = 'remote' if remote else 'sandbox'`). -/
def create_project_config (remote : Bool) : String :=
  ".flyte/" ++ (if remote then "remote" else "sandbox") ++ "-config.yaml"

/-- `Path(".flyte") / f"{config_type}-config.yaml"` as computed in
`register`. -/
def register_config (remote : Bool) : String :=
  ".flyte/" ++ (if remote then "remote" else "sandbox") ++ "-config.yaml"

/-- `Path(".flyte") / f"{'remote' if remote else 'sandbox'}.config"` as
computed in `docker_build`. -/
def docker_build_config (remote : Bool) : String :=
  ".flyte/" ++ (if remote then "remote" else "sandbox") ++ ".config"

/-- `Path(".flyte") / f"{'remote' if remote else 'sandbox'}.config"` as
computed in `serialize`. -/
def serialize_config (remote : Bool) : String :=
  ".flyte/" ++ (if remote then "remote" else "sandbox") ++ ".config"

/-- `create_project(remote)`: runs `flytectl get project PROJECT_NAME`
(`check=True`, so a failing query raises and aborts), and if the decoded
stdout stripped of whitespace is empty, echoes a message and runs
`flytectl create project ...` (`check=True`).  `queryStdout` is the decoded
stdout of the query; `queryOk` / `createOk` are the two subprocesses'
success.  Returns the event trace and whether the call completed without
raising. -/
def create_project (remote : Bool) (queryStdout : String) (queryOk createOk : Bool) :
    List Event × Bool :=
  let config := create_project_config remote
  if !queryOk then ([Event.getProject config], false)
  else if pyStrip queryStdout == "" then
    ([Event.getProject config,
      Event.echo ("Creating project " ++ PROJECT_NAME ++ "...") false,
      Event.createProj config],
     createOk)
  else ([Event.getProject config], true)

/-- The dirty-tree message echoed by `get_version`. -/
def dirtyTreeMsg : String :=
  "Please commit git changes before building. If you haven" ++ "\x27" ++ "t updated" ++
  " any system/python dependencies but want to deploy task/workflow " ++
  "code changes, use the --fast flag to do fast registration."

/-- `get_version(fast)`: if `not fast and repo.is_dirty()`, echo the
dirty-tree message to stderr and raise `typer.Exit(code=1)`; otherwise
return `repo.rev_parse("HEAD").hexsha`.  The result is `none` exactly when
the call raises. -/
def get_version (fast : Bool) (repo : RepoState) : List Event × Option String :=
  if !fast && repo.dirty then
    ([Event.echo dirtyTreeMsg true, Event.exitCall 1], none)
  else
    ([], some repo.headHexsha)

/-- `get_tag(version, registry=None)`: the image tag
`f"{REGISTRY if registry is None else registry}/{IMAGE_NAME}:{PROJECT_NAME}-{version}"`. -/
def get_tag (version : String) (registry : Option String := none) : String :=
  (match registry with
   | none => REGISTRY
   | some r => r) ++ "/" ++ IMAGE_NAME ++ ":" ++ PROJECT_NAME ++ "-" ++ version

/-- `sandbox_docker_build(tag)`: echo, then run
`flytectl sandbox exec -- docker build . --tag tag` (`check=True`). -/
def sandbox_docker_build (tag : String) (sandboxBuildOk : Bool) : List Event × Bool :=
  ([Event.echo "Building image in Flyte sandbox..." false, Event.sandboxBuild tag],
   sandboxBuildOk)

/-- `docker_build(tag, remote)`: builds the image locally via the docker
client with build args `image=tag` and `config=<config path>`; raises on
failure. -/
def docker_build (tag : String) (remote : Bool) (localBuildOk : Bool) :
    List Event × Bool :=
  let config := docker_build_config remote
  ([Event.echo ("Building image: " ++ tag ++ "...") false, Event.localBuild tag config],
   localBuildOk)

/-- `docker_push(image)`: streams `docker_client.api.push(image.tags[0])`.
The docker streaming push reports errors inside the stream rather than by
raising, so the call always completes. -/
def docker_push (tag : String) : List Event :=
  [Event.pushImage tag]

/-- `serialize(tag, remote, fast)`: echo; if `flyte-package.tgz` exists,
`os.remove` it; then run `pyflyte -c <config> --pkgs destinations_similarity
package --force --image tag ...` (`check=True`) with env `FLYTE_SANDBOX` set
to `"1"` iff not remote.  `archiveExists` says whether the archive exists
beforehand and `packOk` whether the packaging subprocess succeeds.  Returns
(trace, completed-without-raising, archive-exists-afterwards); the external
packaging tool is modelled as producing the archive exactly when it exits
successfully. -/
def serialize (tag : String) (remote fast : Bool) (archiveExists packOk : Bool) :
    List Event × Bool × Bool :=
  let config := serialize_config remote
  let flyteSandboxEnv := if !remote then "1" else "0"
  ([Event.echo "Serializing Flyte workflows..." false] ++
     (if archiveExists then [Event.removeArchive] else []) ++
     [Event.packageCall config tag fast flyteSandboxEnv],
   packOk, packOk)

/-- The final version string computed inside `register` when `fast` is set:
`f"{version}-fast{uuid.uuid4().hex[:7]}"`, where `uuidHex` is the 32 hex
digits of the drawn uuid. -/
def fast_version (version : String) (uuidHex : List Char) : String :=
  version ++ "-fast" ++ String.mk (uuidHex.take 7)

/-- `register(version, remote, fast, domain)`: echo; if `fast`, append
`-fast` plus the first 7 hex digits of a fresh `uuid4` to the version; run
`flytectl -c <config> register files ... --force --version version`
(`check=True`); on success echo the final version.  Returns the trace and,
when the subprocess succeeded, the final version string used. -/
def register (version : String) (remote fast : Bool) (domain : String)
    (uuidHex : List Char) (registerOk : Bool) : List Event × Option String :=
  let config := register_config remote
  let finalVersion := if fast then fast_version version uuidHex else version
  if registerOk then
    ([Event.echo "Registering Flyte workflows..." false,
      Event.registerFiles config domain finalVersion,
      Event.echo ("Successfully registered version " ++ finalVersion ++ ".") false],
     some finalVersion)
  else
    ([Event.echo "Registering Flyte workflows..." false,
      Event.registerFiles config domain finalVersion],
     none)

/-- The warning echoed by `main` when both `--remote` and `--fast` are set. -/
def remoteFastWarning : String :=
  "Fast registration is not enabled when deploying to remote. " ++
  "Please deploy your workflows without the --fast flag."

/-- The build/push dispatch of `main` (its `if not fast: ...` block): skip
entirely when `fast`; `docker_push(docker_build(tag, remote))` when remote;
`sandbox_docker_build(tag)` otherwise. -/
def build_stage (tag : String) (remote fast : Bool) (sandboxBuildOk localBuildOk : Bool) :
    List Event × Bool :=
  if !fast then
    if remote then
      let (evB, okB) := docker_build tag remote localBuildOk
      if okB then (evB ++ docker_push tag, true) else (evB, false)
    else
      sandbox_docker_build tag sandboxBuildOk
  else ([], true)

/-- `main(remote=False, fast=False, domain="development", registry=None)`:
the whole deployment sequence.  Echoes the remote-fast warning when both
flags are set (and then continues); runs `create_project`, `get_version`,
`get_tag`; the build stage; `serialize`; `register`.  Any raising step
aborts the rest (uncaught exception, non-zero exit).  Returns the full
event trace and, on success, the final registered version. -/
def main (remote fast : Bool) (domain : String) (registry : Option String)
    (w : World) : List Event × Option String :=
  let warnEvents :=
    if remote && fast then [Event.echo remoteFastWarning true] else []
  let (ev1, ok1) := create_project remote w.queryStdout w.queryOk w.createOk
  if !ok1 then (warnEvents ++ ev1, none)
  else
    let (ev2, version?) := get_version fast w.repo
    match version? with
    | none => (warnEvents ++ ev1 ++ ev2, none)
    | some version =>
      let tag := get_tag version registry
      let (ev3, ok3) := build_stage tag remote fast w.sandboxBuildOk w.localBuildOk
      if !ok3 then (warnEvents ++ ev1 ++ ev2 ++ ev3, none)
      else
        let (ev4, ok4, _archive) := serialize tag remote fast w.archiveExists w.packOk
        if !ok4 then (warnEvents ++ ev1 ++ ev2 ++ ev3 ++ ev4, none)
        else
          let (ev5, reg?) := register version remote fast domain w.uuidHex w.registerOk
          (warnEvents ++ ev1 ++ ev2 ++ ev3 ++ ev4 ++ ev5, reg?)

/-- Is an event one of the image-build / image-push operations? -/
def Event.isBuildOrPush : Event → Bool
  | Event.sandboxBuild _ => true
  | Event.localBuild _ _ => true
  | Event.pushImage _ => true
  | _ => false

/-- Is an event an external action (subprocess or docker-API call), as
opposed to console output or process exit? -/
def Event.isExternal : Event → Bool
  | Event.echo _ _ => false
  | Event.exitCall _ => false
  | _ => true

/-- Is an event a `flytectl create project` invocation? -/
def Event.isCreateProj : Event → Bool
  | Event.createProj _ => true
  | _ => false

/-- Is a character a lowercase hexadecimal digit (the alphabet of Python
`uuid.uuid4().hex`)? -/
def isHexDigitChar (c : Char) : Bool :=
  c.isDigit || ('a' ≤ c && c ≤ 'f')

end Deploy

/-! ## Theorems -/

namespace Deploy

/-- C1: the spec claims `main(remote=true, fast=true)` warns and then rejects
with a `ConfigurationError` before any external action.  The code does emit
the warning, but then CONTINUES: on a concrete run with a clean repository
and an existing project, the trace contains the warning followed by the
project-existence query (an external action), the packaging call and a fast
registration against the remote configuration, the run completes
successfully, and no non-zero exit is raised. -/
theorem C1_remote_fast_not_rejected :
    (Event.echo remoteFastWarning true) ∈
      (main true true "development" none
        ⟨"vamos-dalhe", true, true, ⟨false, "abc123"⟩, true, true, false, true, true,
         "0123456789abcdef0123456789abcdef".toList⟩).1 ∧
    (Event.getProject ".flyte/remote-config.yaml") ∈
      (main true true "development" none
        ⟨"vamos-dalhe", true, true, ⟨false, "abc123"⟩, true, true, false, true, true,
         "0123456789abcdef0123456789abcdef".toList⟩).1 ∧
    (Event.registerFiles ".flyte/remote-config.yaml" "development" "abc123-fast0123456") ∈
      (main true true "development" none
        ⟨"vamos-dalhe", true, true, ⟨false, "abc123"⟩, true, true, false, true, true,
         "0123456789abcdef0123456789abcdef".toList⟩).1 ∧
    (main true true "development" none
      ⟨"vamos-dalhe", true, true, ⟨false, "abc123"⟩, true, true, false, true, true,
       "0123456789abcdef0123456789abcdef".toList⟩).2 = some "abc123-fast0123456" ∧
    (Event.exitCall 1) ∉
      (main true true "development" none
        ⟨"vamos-dalhe", true, true, ⟨false, "abc123"⟩, true, true, false, true, true,
         "0123456789abcdef0123456789abcdef".toList⟩).1 := by
  decide

/-- C2: `get_version(fast=false)` returns the full HEAD hexsha on a clean
tree, and on a dirty tree echoes the dirty-tree message to stderr and raises
`typer.Exit(code=1)` (result `none`); it raises exactly in the dirty case. -/
theorem C2_get_version_nonfast (repo : RepoState) :
    (repo.dirty = false → get_version false repo = ([], some repo.headHexsha)) ∧
    (repo.dirty = true →
      get_version false repo =
        ([Event.echo dirtyTreeMsg true, Event.exitCall 1], none)) := by
  constructor <;> intro h <;> simp [get_version, h]

/-- Witness for C2 at a clean and a dirty repository. -/
theorem C2_get_version_nonfast_witness :
    get_version false ⟨false, "abc123"⟩ = ([], some "abc123") ∧
    get_version false ⟨true, "abc123"⟩ =
      ([Event.echo dirtyTreeMsg true, Event.exitCall 1], none) :=
  ⟨(C2_get_version_nonfast ⟨false, "abc123"⟩).1 rfl,
   (C2_get_version_nonfast ⟨true, "abc123"⟩).2 rfl⟩

/-- C3: two consecutive fast registrations of the same base version to the
same domain each produce a final version of the form
`base ++ "-fast" ++ s` with `s` the first 7 hex digits of the drawn uuid,
and the two final versions are distinct whenever the two fresh uuid draws
differ in those 7 digits (the spec itself treats a collision of the random
disambiguator as negligible). -/
theorem C3_fast_registration_distinct (base domain : String) (remote : Bool)
    (u1 u2 : List Char)
    (h1len : u1.length = 32) (h1hex : u1.all isHexDigitChar = true)
    (h2len : u2.length = 32) (h2hex : u2.all isHexDigitChar = true)
    (hne : u1.take 7 ≠ u2.take 7) :
    (register base remote true domain u1 true).2 =
      some (base ++ "-fast" ++ String.mk (u1.take 7)) ∧
    (register base remote true domain u2 true).2 =
      some (base ++ "-fast" ++ String.mk (u2.take 7)) ∧
    (u1.take 7).length = 7 ∧ (u1.take 7).all isHexDigitChar = true ∧
    (u2.take 7).length = 7 ∧ (u2.take 7).all isHexDigitChar = true ∧
    (register base remote true domain u1 true).2 ≠
      (register base remote true domain u2 true).2 := by
  have hform1 : (register base remote true domain u1 true).2 =
      some (base ++ "-fast" ++ String.mk (u1.take 7)) := rfl
  have hform2 : (register base remote true domain u2 true).2 =
      some (base ++ "-fast" ++ String.mk (u2.take 7)) := rfl
  have hinj : ∀ s1 s2 : List Char,
      base ++ "-fast" ++ String.mk s1 = base ++ "-fast" ++ String.mk s2 → s1 = s2 := by
    intro s1 s2 h
    have hd : base.data ++ ("-fast".data ++ s1) = base.data ++ ("-fast".data ++ s2) := by
      have := congrArg String.data h
      simpa [String.data_append, List.append_assoc] using this
    exact List.append_cancel_left (List.append_cancel_left hd)
  rw [List.all_eq_true] at h1hex h2hex
  refine ⟨hform1, hform2, ?_, ?_, ?_, ?_, ?_⟩
  · rw [List.length_take, h1len]
    decide
  · rw [List.all_eq_true]
    exact fun c hc => h1hex c (List.take_subset 7 u1 hc)
  · rw [List.length_take, h2len]
    decide
  · rw [List.all_eq_true]
    exact fun c hc => h2hex c (List.take_subset 7 u2 hc)
  · intro h
    rw [hform1, hform2] at h
    exact hne (hinj _ _ (Option.some.inj h))

/-- Witness for C3 at two concrete uuid draws. -/
theorem C3_fast_registration_distinct_witness :
    ("0123456789abcdef0123456789abcdef".toList).length = 32 ∧
    ("fedcba9876543210fedcba9876543210".toList).length = 32 ∧
    (register "abc123" false true "development"
        "0123456789abcdef0123456789abcdef".toList true).2 ≠
      (register "abc123" false true "development"
        "fedcba9876543210fedcba9876543210".toList true).2 :=
  ⟨by decide, by decide,
   (C3_fast_registration_distinct "abc123" "development" false
      "0123456789abcdef0123456789abcdef".toList
      "fedcba9876543210fedcba9876543210".toList
      (by decide) (by decide) (by decide) (by decide) (by decide)).2.2.2.2.2.2⟩

/-- C4 counterexample: the claim says the registry component of the tag is
lower-cased regardless of the casing of the supplied registry string, but a
supplied override is used verbatim: with override `"MyRegistry.IO"` the tag
keeps the uppercase letters instead of the lower-cased form the claim
predicts. -/
theorem C4_registry_not_lowercased_cex :
    get_tag "abc123" (some "MyRegistry.IO") =
      "MyRegistry.IO/flytelab:vamos-dalhe-abc123" ∧
    get_tag "abc123" (some "MyRegistry.IO") ≠
      pyLower "MyRegistry.IO" ++ "/flytelab:vamos-dalhe-abc123" :=
  ⟨rfl, by decide⟩

/-- C4 amended: `get_tag` is a pure deterministic function (identical inputs
yield identical output); the DEFAULT registry constant is lower-cased, but a
supplied registry override is used verbatim in the tag, not
case-normalized. -/
theorem C4_get_tag_deterministic (v1 v2 : String) (r1 r2 : Option String)
    (r : String) (hv : v1 = v2) (hr : r1 = r2) :
    get_tag v1 r1 = get_tag v2 r2 ∧
    pyLower REGISTRY = REGISTRY ∧
    get_tag v1 none = REGISTRY ++ "/" ++ IMAGE_NAME ++ ":" ++ PROJECT_NAME ++ "-" ++ v1 ∧
    get_tag v1 (some r) = r ++ "/" ++ IMAGE_NAME ++ ":" ++ PROJECT_NAME ++ "-" ++ v1 := by
  subst hv hr
  exact ⟨rfl, by decide, rfl, rfl⟩

/-- Witness for C4 at concrete inputs. -/
theorem C4_get_tag_deterministic_witness :
    get_tag "abc123" (some "MyRegistry.IO") = get_tag "abc123" (some "MyRegistry.IO") ∧
    pyLower REGISTRY = REGISTRY ∧
    get_tag "abc123" none =
      REGISTRY ++ "/" ++ IMAGE_NAME ++ ":" ++ PROJECT_NAME ++ "-" ++ "abc123" ∧
    get_tag "abc123" (some "MyRegistry.IO") =
      "MyRegistry.IO" ++ "/" ++ IMAGE_NAME ++ ":" ++ PROJECT_NAME ++ "-" ++ "abc123" :=
  C4_get_tag_deterministic "abc123" "abc123" (some "MyRegistry.IO")
    (some "MyRegistry.IO") "MyRegistry.IO" rfl rfl

/-- C5: the build stage of `main` as a state machine over (target, fast):
fast = true produces no build and no push for either target; Sandbox with
fast = false produces exactly the sandbox-delegated build (no local build,
no push); Remote with fast = false builds locally with the fixed build
descriptor and configuration path and then pushes the image. -/
theorem C5_build_stage_state_machine (tag : String) (sOk lOk : Bool) :
    build_stage tag false true sOk lOk = ([], true) ∧
    build_stage tag true true sOk lOk = ([], true) ∧
    build_stage tag false false sOk lOk =
      ([Event.echo "Building image in Flyte sandbox..." false,
        Event.sandboxBuild tag], sOk) ∧
    build_stage tag true false sOk true =
      ([Event.echo ("Building image: " ++ tag ++ "...") false,
        Event.localBuild tag (docker_build_config true),
        Event.pushImage tag], true) :=
  ⟨rfl, rfl, rfl, rfl⟩

/-- C6: `get_version(fast=true)` never raises: for every repository state,
dirty or not, it returns the HEAD hexsha — the same identity a clean
checkout at that commit would produce. -/
theorem C6_get_version_fast_total (repo : RepoState) :
    get_version true repo = ([], some repo.headHexsha) ∧
    get_version true repo = get_version false ⟨false, repo.headHexsha⟩ := by
  simp [get_version]

/-- C7 counterexample: the claim says a non-empty query result means no
creation call, but the code strips whitespace first: on the non-empty,
whitespace-only query output `" "` the code still issues one creation
call. -/
theorem C7_whitespace_query_cex :
    (" " : String) ≠ "" ∧
    ((create_project false " " true true).1.filter Event.isCreateProj).length = 1 := by
  decide

/-- C7 amended: when the existence query succeeds, `create_project` issues
zero creation calls when the query stdout is non-empty after stripping
whitespace, and exactly one creation call when the stripped stdout is
empty. -/
theorem C7_create_project_creation_count (remote : Bool) (queryStdout : String)
    (createOk : Bool) :
    ((create_project remote queryStdout true createOk).1.filter
        Event.isCreateProj).length =
      (if pyStrip queryStdout == "" then 1 else 0) := by
  cases h : pyStrip queryStdout == "" <;>
    simp [create_project, h, Event.isCreateProj]

/-- C8: the image tag equals `{registry}/{image-name}:{project-name}-{version}`
and is fully determined by those inputs; concretely, with version `abc123`
the override `myregistry.io` yields `myregistry.io/flytelab:vamos-dalhe-abc123`
and the default registry yields
`ghcr.io/patrickfbraz/flytelab:vamos-dalhe-abc123`. -/
theorem C8_tag_formula (version registry : String) :
    get_tag version (some registry) =
      registry ++ "/" ++ IMAGE_NAME ++ ":" ++ PROJECT_NAME ++ "-" ++ version ∧
    get_tag version none =
      REGISTRY ++ "/" ++ IMAGE_NAME ++ ":" ++ PROJECT_NAME ++ "-" ++ version ∧
    get_tag "abc123" (some "myregistry.io") =
      "myregistry.io/flytelab:vamos-dalhe-abc123" ∧
    get_tag "abc123" none = "ghcr.io/patrickfbraz/flytelab:vamos-dalhe-abc123" :=
  ⟨rfl, rfl, rfl, rfl⟩

/-- C9: project provisioning and registration resolve the configuration file
as `.flyte/{remote|sandbox}-config.yaml`, while the local image build and
packaging resolve it as `.flyte/{remote|sandbox}.config`: two different
naming conventions for the same target distinction, agreeing within each
pair and differing between the pairs. -/
theorem C9_config_naming_conventions (remote : Bool) :
    create_project_config remote = register_config remote ∧
    docker_build_config remote = serialize_config remote ∧
    create_project_config remote =
      ".flyte/" ++ (if remote then "remote" else "sandbox") ++ "-config.yaml" ∧
    serialize_config remote =
      ".flyte/" ++ (if remote then "remote" else "sandbox") ++ ".config" ∧
    create_project_config remote ≠ serialize_config remote := by
  refine ⟨rfl, rfl, rfl, rfl, ?_⟩
  cases remote <;> decide

/-- C10: with a pre-existing archive, `serialize` removes the archive and
only then invokes the packaging subprocess, whatever the outcome; so when
the packaging subprocess fails, the call raises and the previously existing
archive is already gone — a failed run leaves no archive on disk. -/
theorem C10_serialize_deletes_before_packaging (tag : String) (remote fast : Bool) :
    serialize tag remote fast true false =
      ([Event.echo "Serializing Flyte workflows..." false, Event.removeArchive,
        Event.packageCall (serialize_config remote) tag fast
          (if !remote then "1" else "0")],
       false, false) ∧
    serialize tag remote fast true true =
      ([Event.echo "Serializing Flyte workflows..." false, Event.removeArchive,
        Event.packageCall (serialize_config remote) tag fast
          (if !remote then "1" else "0")],
       true, true) :=
  ⟨rfl, rfl⟩

end Deploy
